import Mathlib

/-
Shallow embedding of the terraform-provider-influxdb-v2 repository
(package influxdbv2): the provider configuration (provider.go), the
readiness data source (datasource_ready.go), the bucket reconciler and
the authorization reconciler (the two resource files).

Modelling conventions:
- terraform-plugin-framework `types.String` / `types.Int64` / `types.Bool`
  values are null, unknown, or a concrete value; `ValueString` /
  `ValueInt64` / `ValueBool` return the Go zero value on null/unknown,
  exactly as the framework does.
- Go pointers to scalars are `Option`; a `*time.Time` rendered with
  `.String()` is modelled as an `Option String` already holding the
  rendered text.
- The remote client is a record of functions returning `Except String`
  (the Go `error`); each reconciler operation also returns the list of
  remote calls it performed, emitted at the exact points the Go code
  performs them.
- Framework plumbing that cannot fail in this code path (decoding
  plan/state into the model, `SetValue` on well-formed elements) is
  elided: models arrive already decoded, and the set conversions are
  total. Logging (tflog) has no observable effect and is dropped.
- Where the Go code dereferences a possibly-nil pointer (`*result.Id`,
  `*(*authorizations)[i].Id`), the embedding uses `Option.getD ""` or a
  Boolean comparison; theorems touching those paths carry hypotheses
  that the pointer is present, matching the inputs on which the Go code
  does not panic.
-/

/-- Terraform framework string value: null, unknown, or a known string. -/
inductive TFString where
  | null
  | unknown
  | value (s : String)
deriving DecidableEq, Repr

/-- `types.String.IsNull`. -/
def TFString.IsNull : TFString → Bool
  | .null => true
  | _ => false

/-- `types.String.ValueString`: the known value, or "" on null/unknown. -/
def TFString.ValueString : TFString → String
  | .value s => s
  | _ => ""

/-- Terraform framework int64 value. -/
inductive TFInt64 where
  | null
  | unknown
  | value (n : Int)
deriving DecidableEq, Repr

/-- `types.Int64.ValueInt64`: the known value, or 0 on null/unknown. -/
def TFInt64.ValueInt64 : TFInt64 → Int
  | .value n => n
  | _ => 0

/-- Terraform framework bool value. -/
inductive TFBool where
  | null
  | unknown
  | value (b : Bool)
deriving DecidableEq, Repr

/-- One framework diagnostic: summary (title) and detail. -/
structure Diagnostic where
  summary : String
  detail : String
deriving DecidableEq, Repr

/-- Response of a CRUD operation: accumulated error diagnostics, and the
model written to state (`none` when the operation returned before
`resp.State.Set`). -/
structure OpResponse (α : Type) where
  diagnostics : List Diagnostic
  state : Option α
deriving DecidableEq, Repr

/- ------------------------------------------------------------------
   Authorization resource (resource_authorization.go)
   ------------------------------------------------------------------ -/

/-- `domain.Resource` as populated by this provider. -/
structure DomainResource where
  Type' : String
  Id : Option String
  OrgID : Option String
  Name : Option String
  Org : Option String
deriving DecidableEq, Repr

/-- `domain.Permission`. -/
structure DomainPermission where
  Action : String
  Resource : DomainResource
deriving DecidableEq, Repr

/-- `domain.Authorization`: the fields this provider reads or writes. -/
structure DomainAuthorization where
  Id : Option String
  OrgID : Option String
  Description : Option String
  Status : Option String
  UserID : Option String
  Token : Option String
  Permissions : Option (List DomainPermission)
deriving DecidableEq, Repr

/-- `ResourceModel` (nested resource block of a permission). -/
structure ResourceModel where
  ID : TFString
  Org : TFString
  OrgID : TFString
  Type' : TFString
deriving DecidableEq, Repr

/-- `PermissionModel`; the `resource` set arrives decoded as a list. -/
structure PermissionModel where
  Action : TFString
  Resource : List ResourceModel
deriving DecidableEq, Repr

/-- `AuthorizationResourceModel`; the `permissions` set arrives decoded. -/
structure AuthorizationResourceModel where
  ID : TFString
  OrgID : TFString
  Description : TFString
  Status : TFString
  Permissions : List PermissionModel
  UserID : TFString
  UserOrgID : TFString
  Token : TFString
deriving DecidableEq, Repr

/-- Remote calls the authorization reconciler can make on
`AuthorizationsAPI`. -/
inductive AuthCall where
  | findAuthorizationsByOrgID (orgID : String)
  | createAuthorization (a : DomainAuthorization)
  | updateAuthorizationStatus (id status : String)
  | deleteAuthorization (id : String)
deriving DecidableEq, Repr

/-- A call is a mutation unless it is the list/find call. -/
def AuthCall.isMutation : AuthCall → Bool
  | .findAuthorizationsByOrgID _ => false
  | _ => true

/-- The `AuthorizationsAPI` surface used by the reconciler. -/
structure AuthClient where
  findAuthorizationsByOrgID : String → Except String (List DomainAuthorization)
  createAuthorization : DomainAuthorization → Except String DomainAuthorization
  updateAuthorizationStatus : String → String → Except String DomainAuthorization

/-- The loop predicate of `readAuthorization`:
`*(*authorizations)[i].Id == model.ID.ValueString()`. The Go code
dereferences `Id`; an absent `Id` is treated here as non-matching. -/
def authMatches (model : AuthorizationResourceModel) (a : DomainAuthorization) : Bool :=
  a.Id == some model.ID.ValueString

/-- `convertPermissionsToDomain`: the nested loops of the Go helper,
flattening each permission entry into one domain permission per
resource record. `Name` is always set to `""` by the source. -/
def convertPermissionsToDomain : List PermissionModel → List DomainPermission
  | [] => []
  | perm :: rest =>
    perm.Resource.map
      (fun res =>
        { Action := perm.Action.ValueString
          Resource :=
            { Type' := res.Type'.ValueString
              Id := some res.ID.ValueString
              OrgID := some res.OrgID.ValueString
              Name := some ""
              Org := some res.Org.ValueString } })
      ++ convertPermissionsToDomain rest

/-- `readAuthorization`: list the organization's authorizations, search
linearly for the model's id, and copy Status / UserID / OrgID / Token
into the model when present on the found record. Permissions are not
assigned (the list API does not return them). Returns the updated model
and the remote calls performed. -/
def readAuthorization (c : AuthClient) (model : AuthorizationResourceModel) :
    Except String AuthorizationResourceModel × List AuthCall :=
  let orgID := model.OrgID.ValueString
  match c.findAuthorizationsByOrgID orgID with
  | .error e =>
    (.error ("error finding authorizations: " ++ e), [.findAuthorizationsByOrgID orgID])
  | .ok authorizations =>
    match authorizations.find? (authMatches model) with
    | none => (.error "authorization not found", [.findAuthorizationsByOrgID orgID])
    | some auth =>
      (.ok { model with
              Status := (match auth.Status with
                | some s => TFString.value s
                | none => model.Status)
              UserID := (match auth.UserID with
                | some u => TFString.value u
                | none => model.UserID)
              UserOrgID := (match auth.OrgID with
                | some o => TFString.value o
                | none => model.UserOrgID)
              Token := (match auth.Token with
                | some t => TFString.value t
                | none => model.Token) },
       [.findAuthorizationsByOrgID orgID])

/-- `AuthorizationResource.Read`: run `readAuthorization` on the prior
state; on error add the "Error Reading Authorization" diagnostic and do
not write state, otherwise write the updated model. -/
def AuthorizationResource.Read (c : AuthClient) (state : AuthorizationResourceModel) :
    OpResponse AuthorizationResourceModel × List AuthCall :=
  match readAuthorization c state with
  | (.error e, tr) =>
    ({ diagnostics :=
        [⟨"Error Reading Authorization",
          "Could not read authorization ID " ++ state.ID.ValueString ++ ": " ++ e⟩]
       state := none }, tr)
  | (.ok st, tr) => ({ diagnostics := [], state := some st }, tr)

/-- The `domain.Authorization` built by `AuthorizationResource.Create`
from the plan before calling `CreateAuthorization`. -/
def authCreateRequest (plan : AuthorizationResourceModel) : DomainAuthorization :=
  { Id := none
    OrgID := some plan.OrgID.ValueString
    Description := some plan.Description.ValueString
    Status := some plan.Status.ValueString
    UserID := none
    Token := none
    Permissions := some (convertPermissionsToDomain plan.Permissions) }

/-- `AuthorizationResource.Create`: convert permissions, call
`CreateAuthorization` once, then set ID / Token / UserID / UserOrgID
from the result and write state. (`*result.Id` is a Go dereference;
modelled with `Option.getD ""`.) -/
def AuthorizationResource.Create (c : AuthClient) (plan : AuthorizationResourceModel) :
    OpResponse AuthorizationResourceModel × List AuthCall :=
  let authorization := authCreateRequest plan
  match c.createAuthorization authorization with
  | .error e =>
    ({ diagnostics :=
        [⟨"Error Creating Authorization", "Could not create authorization: " ++ e⟩]
       state := none }, [.createAuthorization authorization])
  | .ok result =>
    let plan1 := { plan with
      ID := TFString.value (result.Id.getD "")
      Token := (match result.Token with
        | some t => TFString.value t
        | none => plan.Token)
      UserID := (match result.UserID with
        | some u => TFString.value u
        | none => plan.UserID)
      UserOrgID := (match result.OrgID with
        | some o => TFString.value o
        | none => plan.UserOrgID) }
    ({ diagnostics := [], state := some plan1 }, [.createAuthorization authorization])

/-- `AuthorizationResource.Update`: call `UpdateAuthorizationStatus`
with the plan's id and status (the only attributes sent), then re-run
`readAuthorization` on the plan before writing state. -/
def AuthorizationResource.Update (c : AuthClient) (plan : AuthorizationResourceModel) :
    OpResponse AuthorizationResourceModel × List AuthCall :=
  let id := plan.ID.ValueString
  let status := plan.Status.ValueString
  match c.updateAuthorizationStatus id status with
  | .error e =>
    ({ diagnostics :=
        [⟨"Error Updating Authorization",
          "Could not update authorization status: " ++ e⟩]
       state := none }, [.updateAuthorizationStatus id status])
  | .ok _ =>
    match readAuthorization c plan with
    | (.error e, tr) =>
      ({ diagnostics :=
          [⟨"Error Reading Authorization After Update",
            "Could not read authorization after update: " ++ e⟩]
         state := none }, .updateAuthorizationStatus id status :: tr)
    | (.ok st, tr) =>
      ({ diagnostics := [], state := some st }, .updateAuthorizationStatus id status :: tr)

/- ------------------------------------------------------------------
   Bucket resource (resource_bucket.go)
   ------------------------------------------------------------------ -/

/-- `domain.RetentionRule`. -/
structure DomainRetentionRule where
  EverySeconds : Int
  Type' : Option String
deriving DecidableEq, Repr

/-- `domain.Bucket`: the fields this provider reads or writes.
`CreatedAt` / `UpdatedAt` are `*time.Time` in Go; they are modelled as
the rendered `.String()` text. -/
structure DomainBucket where
  Id : Option String
  Name : String
  Description : Option String
  OrgID : Option String
  Rp : Option String
  CreatedAt : Option String
  UpdatedAt : Option String
  Type' : Option String
  RetentionRules : List DomainRetentionRule
deriving DecidableEq, Repr

/-- `RetentionRuleModel` (nested retention_rules block). -/
structure RetentionRuleModel where
  EverySeconds : TFInt64
  Type' : TFString
deriving DecidableEq, Repr

/-- `BucketResourceModel`; the `retention_rules` set arrives decoded. -/
structure BucketResourceModel where
  ID : TFString
  Name : TFString
  Description : TFString
  OrgID : TFString
  RetentionRules : List RetentionRuleModel
  RP : TFString
  CreatedAt : TFString
  UpdatedAt : TFString
  Type' : TFString
deriving DecidableEq, Repr

/-- The `BucketsAPI` surface used by the claims under study. -/
structure BucketsClient where
  createBucket : DomainBucket → Except String DomainBucket
  findBucketByID : String → Except String DomainBucket

/-- `convertRetentionRulesToDomain`: each terraform rule becomes a
domain rule with its type pointer always set. -/
def convertRetentionRulesToDomain : List RetentionRuleModel → List DomainRetentionRule
  | [] => []
  | rule :: rest =>
    { EverySeconds := rule.EverySeconds.ValueInt64
      Type' := some rule.Type'.ValueString } :: convertRetentionRulesToDomain rest

/-- `convertRetentionRulesToTerraform`: each domain rule becomes a
terraform rule, a nil rule type defaulting to "expire". (The Go
`types.SetValue` error paths cannot fire on these well-formed
elements and are elided.) -/
def convertRetentionRulesToTerraform : List DomainRetentionRule → List RetentionRuleModel
  | [] => []
  | rule :: rest =>
    { EverySeconds := TFInt64.value rule.EverySeconds
      Type' := TFString.value (match rule.Type' with
        | some t => t
        | none => "expire") } :: convertRetentionRulesToTerraform rest

/-- `readBucket`: fetch by the model's id and copy every field back,
defaulting a nil Description or Rp to "", keeping the prior value for
OrgID / CreatedAt / UpdatedAt / Type when absent on the result, and
converting the retention rules. -/
def readBucket (c : BucketsClient) (model : BucketResourceModel) :
    Except String BucketResourceModel :=
  match c.findBucketByID model.ID.ValueString with
  | .error e => .error ("error finding bucket: " ++ e)
  | .ok result =>
    .ok { model with
      Name := TFString.value result.Name
      Description := (match result.Description with
        | some d => TFString.value d
        | none => TFString.value "")
      OrgID := (match result.OrgID with
        | some o => TFString.value o
        | none => model.OrgID)
      RP := (match result.Rp with
        | some r => TFString.value r
        | none => TFString.value "")
      CreatedAt := (match result.CreatedAt with
        | some t => TFString.value t
        | none => model.CreatedAt)
      UpdatedAt := (match result.UpdatedAt with
        | some t => TFString.value t
        | none => model.UpdatedAt)
      Type' := (match result.Type' with
        | some t => TFString.value t
        | none => model.Type')
      RetentionRules := convertRetentionRulesToTerraform result.RetentionRules }

/-- The `domain.Bucket` built by `BucketResource.Create` from the plan
before calling `CreateBucket`. -/
def bucketCreateRequest (plan : BucketResourceModel) : DomainBucket :=
  { Id := none
    Name := plan.Name.ValueString
    Description := some plan.Description.ValueString
    OrgID := some plan.OrgID.ValueString
    Rp := some plan.RP.ValueString
    CreatedAt := none
    UpdatedAt := none
    Type' := none
    RetentionRules := convertRetentionRulesToDomain plan.RetentionRules }

/-- `BucketResource.Create`: call `CreateBucket`, set the plan's ID from
the result (`*result.Id` is a Go dereference, modelled with
`Option.getD ""`), then run `readBucket` to populate the computed
fields; state is written only when that read succeeds. -/
def BucketResource.Create (c : BucketsClient) (plan : BucketResourceModel) :
    OpResponse BucketResourceModel :=
  match c.createBucket (bucketCreateRequest plan) with
  | .error e =>
    { diagnostics :=
        [⟨"Error Creating Bucket", "Could not create bucket, unexpected error: " ++ e⟩]
      state := none }
  | .ok result =>
    let plan1 := { plan with ID := TFString.value (result.Id.getD "") }
    match readBucket c plan1 with
    | .error e =>
      { diagnostics :=
          [⟨"Error Reading Bucket After Creation",
            "Could not read bucket after creation: " ++ e⟩]
        state := none }
    | .ok m => { diagnostics := [], state := some m }

/-- `BucketResource.Read`: run `readBucket` on the prior state; on error
add the "Error Reading Bucket" diagnostic and do not write state. -/
def BucketResource.Read (c : BucketsClient) (state : BucketResourceModel) :
    OpResponse BucketResourceModel :=
  match readBucket c state with
  | .error e =>
    { diagnostics :=
        [⟨"Error Reading Bucket",
          "Could not read bucket ID " ++ state.ID.ValueString ++ ": " ++ e⟩]
      state := none }
  | .ok st => { diagnostics := [], state := some st }

/- ------------------------------------------------------------------
   Resource schemas (plan-time rules)
   ------------------------------------------------------------------ -/

/-- The plan modifiers this codebase attaches to schema attributes. -/
inductive PlanModifierKind where
  | useStateForUnknown
  | requiresReplace
deriving DecidableEq, Repr

/-- One schema attribute: flags, static string default, plan modifiers.
Descriptions and nested-object attribute maps are elided. -/
structure AttributeSchema where
  name : String
  required : Bool
  optional : Bool
  computed : Bool
  sensitive : Bool
  defaultValue : Option String
  planModifiers : List PlanModifierKind
deriving DecidableEq, Repr

/-- Top-level attributes of `AuthorizationResource.Schema`, transcribed
from the source. The `permissions` attribute has an empty
`PlanModifiers` slice whose only content in the source is the comment
"Permissions cannot be updated once created"; `description` declares no
plan modifiers at all. -/
def authorizationSchemaAttributes : List AttributeSchema :=
  [ { name := "id", required := false, optional := false, computed := true,
      sensitive := false, defaultValue := none,
      planModifiers := [.useStateForUnknown] },
    { name := "org_id", required := true, optional := false, computed := false,
      sensitive := false, defaultValue := none,
      planModifiers := [.requiresReplace] },
    { name := "description", required := false, optional := true, computed := true,
      sensitive := false, defaultValue := some "",
      planModifiers := [] },
    { name := "status", required := false, optional := true, computed := true,
      sensitive := false, defaultValue := some "active",
      planModifiers := [] },
    { name := "permissions", required := true, optional := false, computed := false,
      sensitive := false, defaultValue := none,
      planModifiers := [] },
    { name := "user_id", required := false, optional := false, computed := true,
      sensitive := false, defaultValue := none,
      planModifiers := [.useStateForUnknown] },
    { name := "user_org_id", required := false, optional := false, computed := true,
      sensitive := false, defaultValue := none,
      planModifiers := [.useStateForUnknown] },
    { name := "token", required := false, optional := false, computed := true,
      sensitive := true, defaultValue := none,
      planModifiers := [.useStateForUnknown] } ]

/-- Whether the named attribute of a schema carries a RequiresReplace
plan modifier. -/
def attrRequiresReplace (attrs : List AttributeSchema) (n : String) : Bool :=
  match attrs.find? (fun a => a.name == n) with
  | some a => a.planModifiers.contains .requiresReplace
  | none => false

/- ------------------------------------------------------------------
   Provider configuration (provider.go)
   ------------------------------------------------------------------ -/

/-- The two environment variables read by `Configure`; `os.Getenv`
returns "" when a variable is unset, so each is a plain string. -/
structure Env where
  influxdbV2Url : String
  influxdbV2Token : String

/-- `influxdbProviderModel`: the provider configuration block. -/
structure influxdbProviderModel where
  URL : TFString
  Token : TFString
deriving DecidableEq, Repr

/-- The payload of a successful `client.Ready(ctx)` call: `domain.Ready`
with its optional Status and Started fields (`Started` rendered). -/
structure ReadyInfo where
  Status : Option String
  Started : Option String
deriving DecidableEq, Repr

/-- Outcome of `influxdbProvider.Configure`: the diagnostics, the
resolved url and token, whether a client was constructed and its
readiness probed, and whether the client was shared with resources and
data sources (`resp.DataSourceData` / `resp.ResourceData`). -/
structure ConfigureResult where
  diagnostics : List Diagnostic
  resolvedURL : String
  resolvedToken : String
  clientCreated : Bool
  readyProbed : Bool
  clientShared : Bool
deriving DecidableEq, Repr

/-- The "Missing InfluxDB URL Configuration" diagnostic. -/
def urlMissingDiag : Diagnostic :=
  ⟨"Missing InfluxDB URL Configuration",
   "While configuring the provider, the InfluxDB URL was not found in " ++
   "the INFLUXDB_V2_URL environment variable or provider " ++
   "configuration block url attribute."⟩

/-- The "Missing InfluxDB Token Configuration" diagnostic. -/
def tokenMissingDiag : Diagnostic :=
  ⟨"Missing InfluxDB Token Configuration",
   "While configuring the provider, the InfluxDB token was not found in " ++
   "the INFLUXDB_V2_TOKEN environment variable or provider " ++
   "configuration block token attribute."⟩

/-- The "Unable to Connect to InfluxDB Server" diagnostic. -/
def connectErrorDiag (e : String) : Diagnostic :=
  ⟨"Unable to Connect to InfluxDB Server",
   "An unexpected error occurred when connecting to the InfluxDB server. " ++
   "If the error is not clear, please contact the provider developers.\n\n" ++
   "InfluxDB Client Error: " ++ e⟩

/-- The "InfluxDB Server Not Ready" diagnostic. -/
def serverNotReadyDiag : Diagnostic :=
  ⟨"InfluxDB Server Not Ready",
   "The InfluxDB server is not ready to accept connections."⟩

/-- URL resolution of `Configure`: the environment variable, overridden
by a non-null configuration value, then defaulted when still empty. -/
def resolveURL (env : Env) (config : influxdbProviderModel) : String :=
  let url0 := env.influxdbV2Url
  let url1 := if !config.URL.IsNull then config.URL.ValueString else url0
  if url1 == "" then "http://localhost:8086" else url1

/-- Token resolution of `Configure`: the environment variable,
overridden by a non-null configuration value; no default. -/
def resolveToken (env : Env) (config : influxdbProviderModel) : String :=
  if !config.Token.IsNull then config.Token.ValueString else env.influxdbV2Token

/-- The readiness-probe phase of `Configure`: its diagnostics and
whether the client gets shared. `.ok none` models Go's `ready == nil`;
a payload whose Status is nil also fails the `ready.Status == nil`
check. -/
def configureProbe (outcome : Except String (Option ReadyInfo)) : List Diagnostic × Bool :=
  match outcome with
  | .error e => ([connectErrorDiag e], false)
  | .ok none => ([serverNotReadyDiag], false)
  | .ok (some r) =>
    match r.Status with
    | none => ([serverNotReadyDiag], false)
    | some _ => ([], true)

/-- `influxdbProvider.Configure`: resolve url and token, add a
missing-value diagnostic for each empty result (url first, token
second, exactly as the source appends them) and return before
constructing a client if any was added; otherwise construct the client,
probe `Ready`, and share the client only when the probe succeeds with a
non-nil payload carrying a non-nil Status. `ready` supplies the probe
outcome for the client built from the resolved url and token. -/
def influxdbProvider.Configure (env : Env) (config : influxdbProviderModel)
    (ready : String → String → Except String (Option ReadyInfo)) : ConfigureResult :=
  let url := resolveURL env config
  let token := resolveToken env config
  let diags : List Diagnostic :=
    (if url == "" then [urlMissingDiag] else []) ++
    (if token == "" then [tokenMissingDiag] else [])
  if diags.isEmpty then
    let probe := configureProbe (ready url token)
    { diagnostics := probe.fst, resolvedURL := url, resolvedToken := token,
      clientCreated := true, readyProbed := true, clientShared := probe.snd }
  else
    { diagnostics := diags, resolvedURL := url, resolvedToken := token,
      clientCreated := false, readyProbed := false, clientShared := false }

/- ------------------------------------------------------------------
   Readiness data source (datasource_ready.go)
   ------------------------------------------------------------------ -/

/-- `ReadyDataSourceModel`. -/
structure ReadyDataSourceModel where
  ID : TFString
  URL : TFString
  Ready : TFBool
  Status : TFString
  Started : TFString
deriving DecidableEq, Repr

/-- The client surface used by the readiness data source. The influxdb
client returns a non-nil Ready payload exactly when its error is nil,
so the success payload is always present here. -/
structure ReadyClient where
  Ready : Except String ReadyInfo
  ServerURL : String

/-- `ReadyDataSource.Read`: probe `Ready`; on error add the diagnostic
and write no state; on success write a state with `ready = true`,
status defaulting to "unknown" and started defaulting to "". -/
def ReadyDataSource.Read (c : ReadyClient) : OpResponse ReadyDataSourceModel :=
  match c.Ready with
  | .error e =>
    { diagnostics :=
        [⟨"Error Checking Server Status", "Could not check if server is ready: " ++ e⟩]
      state := none }
  | .ok ready =>
    let serverURL := c.ServerURL
    { diagnostics := []
      state := some
        { ID := TFString.value serverURL
          URL := TFString.value serverURL
          Ready := TFBool.value true
          Status := (match ready.Status with
            | some s => TFString.value s
            | none => TFString.value "unknown")
          Started := (match ready.Started with
            | some t => TFString.value t
            | none => TFString.value "") } }

/- ------------------------------------------------------------------
   Theorems
   ------------------------------------------------------------------ -/

/-- C1: for every authorization Read, when listing the organization's
authorizations succeeds but no listed record (each carrying an id, as
the Go dereference requires) has the model's id, `readAuthorization`
returns the "authorization not found" error, and the Read operation
reports exactly the corresponding error diagnostic and writes no model
to state. -/
theorem authRead_not_found_reports_error (c : AuthClient)
    (state : AuthorizationResourceModel) (auths : List DomainAuthorization)
    (hfind : c.findAuthorizationsByOrgID state.OrgID.ValueString = .ok auths)
    (_hids : ∀ a ∈ auths, a.Id.isSome)
    (hmiss : ∀ a ∈ auths, a.Id ≠ some state.ID.ValueString) :
    (readAuthorization c state).fst = .error "authorization not found"
    ∧ (AuthorizationResource.Read c state).fst.state = none
    ∧ (AuthorizationResource.Read c state).fst.diagnostics =
        [⟨"Error Reading Authorization",
          "Could not read authorization ID " ++ state.ID.ValueString ++ ": " ++
            "authorization not found"⟩] := by
  have hnone : auths.find? (authMatches state) = none := by
    rw [List.find?_eq_none]
    intro a ha
    simp only [authMatches, beq_iff_eq]
    exact hmiss a ha
  refine ⟨?_, ?_, ?_⟩ <;>
    simp [readAuthorization, AuthorizationResource.Read, hfind, hnone]

/-- Concrete input for the claim C1 theorem: one listed authorization
with a different id. -/
def w1Auth : DomainAuthorization :=
  { Id := some "other-id", OrgID := some "org-1", Description := some ""
    Status := some "active", UserID := some "user-1", Token := none
    Permissions := none }

/-- Concrete client for the claim C1 witness. -/
def w1Client : AuthClient :=
  { findAuthorizationsByOrgID := fun _ => .ok [w1Auth]
    createAuthorization := fun _ => .error "unused"
    updateAuthorizationStatus := fun _ _ => .error "unused" }

/-- Concrete prior state for the claim C1 witness. -/
def w1State : AuthorizationResourceModel :=
  { ID := TFString.value "auth-1", OrgID := TFString.value "org-1"
    Description := TFString.value "", Status := TFString.value "active"
    Permissions := [], UserID := TFString.null, UserOrgID := TFString.null
    Token := TFString.value "tok" }

/-- Witness for C1 at a concrete client and state. -/
theorem authRead_not_found_reports_error_witness :
    (readAuthorization w1Client w1State).fst = .error "authorization not found"
    ∧ (AuthorizationResource.Read w1Client w1State).fst.state = none
    ∧ (AuthorizationResource.Read w1Client w1State).fst.diagnostics =
        [⟨"Error Reading Authorization",
          "Could not read authorization ID " ++ w1State.ID.ValueString ++ ": " ++
            "authorization not found"⟩] :=
  authRead_not_found_reports_error w1Client w1State [w1Auth] rfl
    (by decide) (by decide)

/-- Concrete listed record for claim C4: the list API returned a token
on this record. -/
def cex4Record : DomainAuthorization :=
  { Id := some "auth-1", OrgID := some "org-1", Description := none
    Status := some "active", UserID := some "user-1"
    Token := some "token-from-list", Permissions := none }

/-- Concrete client for claim C4. -/
def cex4Client : AuthClient :=
  { findAuthorizationsByOrgID := fun _ => .ok [cex4Record]
    createAuthorization := fun _ => .error "unused"
    updateAuthorizationStatus := fun _ _ => .error "unused" }

/-- Concrete prior model for claim C4, holding a previously known
token. -/
def cex4Model : AuthorizationResourceModel :=
  { ID := TFString.value "auth-1", OrgID := TFString.value "org-1"
    Description := TFString.value "", Status := TFString.value "active"
    Permissions := [], UserID := TFString.null, UserOrgID := TFString.null
    Token := TFString.value "token-from-state" }

/-- C4 counterexample: when the listed record carries a non-nil Token,
`readAuthorization` overwrites the model's Token with it, so the Token
field is not left at its prior value regardless of the record's
contents. -/
theorem authRead_overwrites_token_cex :
    ((readAuthorization cex4Client cex4Model).fst.toOption.map
        AuthorizationResourceModel.Token) = some (TFString.value "token-from-list")
    ∧ cex4Model.Token = TFString.value "token-from-state"
    ∧ TFString.value "token-from-list" ≠ TFString.value "token-from-state" := by
  refine ⟨rfl, rfl, ?_⟩
  decide

/-- C4 (amended): when `readAuthorization` finds the matching record,
the model's Permissions are never assigned; the Token keeps its prior
value exactly when the found record's Token is nil, and is overwritten
with the record's token when one is present. -/
theorem authRead_frame_permissions_token (c : AuthClient)
    (model : AuthorizationResourceModel) (auths : List DomainAuthorization)
    (a : DomainAuthorization) (m : AuthorizationResourceModel)
    (hfind : c.findAuthorizationsByOrgID model.OrgID.ValueString = .ok auths)
    (hfound : auths.find? (authMatches model) = some a)
    (hread : (readAuthorization c model).fst = .ok m) :
    m.Permissions = model.Permissions
    ∧ m.ID = model.ID
    ∧ m.Description = model.Description
    ∧ (a.Token = none → m.Token = model.Token)
    ∧ (∀ t, a.Token = some t → m.Token = TFString.value t) := by
  simp only [readAuthorization, hfind, hfound] at hread
  rw [Except.ok.injEq] at hread
  subst hread
  refine ⟨rfl, rfl, rfl, ?_, ?_⟩
  · intro h; simp [h]
  · intro t h; simp [h]

/-- Concrete listed record for the C4 witness: no token on the record. -/
def w4Record : DomainAuthorization :=
  { Id := some "auth-1", OrgID := some "org-1", Description := none
    Status := some "inactive", UserID := some "user-1"
    Token := none, Permissions := none }

/-- Concrete client for the C4 witness. -/
def w4Client : AuthClient :=
  { findAuthorizationsByOrgID := fun _ => .ok [w4Record]
    createAuthorization := fun _ => .error "unused"
    updateAuthorizationStatus := fun _ _ => .error "unused" }

/-- The model produced by `readAuthorization` at the C4 witness input. -/
def w4After : AuthorizationResourceModel :=
  { ID := TFString.value "auth-1", OrgID := TFString.value "org-1"
    Description := TFString.value "", Status := TFString.value "inactive"
    Permissions := [], UserID := TFString.value "user-1"
    UserOrgID := TFString.value "org-1"
    Token := TFString.value "token-from-state" }

/-- Witness for the amended C4 at a concrete client and model. -/
theorem authRead_frame_permissions_token_witness :
    w4After.Permissions = cex4Model.Permissions
    ∧ w4After.ID = cex4Model.ID
    ∧ w4After.Description = cex4Model.Description
    ∧ (w4Record.Token = none → w4After.Token = cex4Model.Token)
    ∧ (∀ t, w4Record.Token = some t → w4After.Token = TFString.value t) :=
  authRead_frame_permissions_token w4Client cex4Model [w4Record] w4Record w4After
    rfl (by decide) rfl

/-- C5 (evaluated on the code): in the authorization schema neither the
`permissions` attribute (whose plan-modifier list is empty, its only
content in the source being the comment "Permissions cannot be updated
once created") nor the `description` attribute carries a
RequiresReplace plan modifier; only `org_id` does. -/
theorem authorizationSchema_requiresReplace_facts :
    attrRequiresReplace authorizationSchemaAttributes "permissions" = false
    ∧ attrRequiresReplace authorizationSchemaAttributes "description" = false
    ∧ attrRequiresReplace authorizationSchemaAttributes "org_id" = true := by
  decide

/-- The remote-call trace of `readAuthorization` is always exactly one
list call for the model's organization. -/
theorem readAuthorization_calls (c : AuthClient) (model : AuthorizationResourceModel) :
    (readAuthorization c model).snd =
      [.findAuthorizationsByOrgID model.OrgID.ValueString] := by
  unfold readAuthorization
  rcases h : c.findAuthorizationsByOrgID model.OrgID.ValueString with e | l
  · simp [h]
  · simp only [h]
    rcases h2 : l.find? (authMatches model) with _ | a <;> simp [h2]

/-- C6: authorization Update performs exactly one mutating remote call,
`UpdateAuthorizationStatus` with the plan's id and status (no other
attribute is sent); and whenever it writes state, the written model is
the result of re-running `readAuthorization` on the plan. -/
theorem authUpdate_status_only (c : AuthClient) (plan : AuthorizationResourceModel) :
    ((AuthorizationResource.Update c plan).snd.filter AuthCall.isMutation =
      [.updateAuthorizationStatus plan.ID.ValueString plan.Status.ValueString])
    ∧ (∀ st, (AuthorizationResource.Update c plan).fst.state = some st →
        (readAuthorization c plan).fst = .ok st) := by
  unfold AuthorizationResource.Update
  rcases h : c.updateAuthorizationStatus plan.ID.ValueString plan.Status.ValueString
    with e | r
  · simp [h, AuthCall.isMutation]
  · simp only [h]
    have htr := readAuthorization_calls c plan
    rcases h2 : readAuthorization c plan with ⟨res, tr⟩
    rw [h2] at htr
    simp only at htr
    subst htr
    rcases res with e2 | m <;>
      simp [AuthCall.isMutation, List.filter]

/-- Concrete matched record for the C6 witness. -/
def w6Record : DomainAuthorization :=
  { Id := some "auth-1", OrgID := some "org-1", Description := none
    Status := some "inactive", UserID := some "user-1"
    Token := none, Permissions := none }

/-- Concrete client for the C6 witness: status update and listing both
succeed. -/
def w6Client : AuthClient :=
  { findAuthorizationsByOrgID := fun _ => .ok [w6Record]
    createAuthorization := fun _ => .error "unused"
    updateAuthorizationStatus := fun _ _ => .ok w6Record }

/-- Concrete plan for the C6 witness. -/
def w6Plan : AuthorizationResourceModel :=
  { ID := TFString.value "auth-1", OrgID := TFString.value "org-1"
    Description := TFString.value "d", Status := TFString.value "inactive"
    Permissions := [], UserID := TFString.null, UserOrgID := TFString.null
    Token := TFString.value "tok" }

/-- The model `readAuthorization` yields at the C6 witness input. -/
def w6After : AuthorizationResourceModel :=
  { ID := TFString.value "auth-1", OrgID := TFString.value "org-1"
    Description := TFString.value "d", Status := TFString.value "inactive"
    Permissions := [], UserID := TFString.value "user-1"
    UserOrgID := TFString.value "org-1"
    Token := TFString.value "tok" }

/-- Witness for C6 at a concrete client and plan. -/
theorem authUpdate_status_only_witness :
    ((AuthorizationResource.Update w6Client w6Plan).snd.filter AuthCall.isMutation =
      [.updateAuthorizationStatus w6Plan.ID.ValueString w6Plan.Status.ValueString])
    ∧ (readAuthorization w6Client w6Plan).fst = .ok w6After := by
  have h := authUpdate_status_only w6Client w6Plan
  exact ⟨h.1, h.2 w6After (by decide)⟩

/-- The length of the flattened permission list is the total number of
resource records across all entries. -/
theorem convertPermissionsToDomain_length (perms : List PermissionModel) :
    (convertPermissionsToDomain perms).length =
      (perms.map (fun p => p.Resource.length)).sum := by
  induction perms with
  | nil => rfl
  | cons p rest ih => simp [convertPermissionsToDomain, ih]

/-- C10: authorization Create makes exactly one remote call, a
`CreateAuthorization` whose permissions are the flattening produced by
`convertPermissionsToDomain`; the flattening turns each entry into one
domain permission per resource record (pairing the entry's action with
that resource), so its length is the total resource count, and an entry
with an empty resource set contributes nothing. -/
theorem authCreate_flattens_permissions (c : AuthClient)
    (plan : AuthorizationResourceModel) :
    (AuthorizationResource.Create c plan).snd =
      [.createAuthorization (authCreateRequest plan)]
    ∧ (authCreateRequest plan).Permissions =
        some (convertPermissionsToDomain plan.Permissions)
    ∧ (convertPermissionsToDomain plan.Permissions).length =
        (plan.Permissions.map (fun p => p.Resource.length)).sum
    ∧ (∀ p rest, p.Resource = [] →
        convertPermissionsToDomain (p :: rest) = convertPermissionsToDomain rest)
    ∧ (∀ p rest, convertPermissionsToDomain (p :: rest) =
        p.Resource.map
          (fun res =>
            { Action := p.Action.ValueString
              Resource :=
                { Type' := res.Type'.ValueString
                  Id := some res.ID.ValueString
                  OrgID := some res.OrgID.ValueString
                  Name := some ""
                  Org := some res.Org.ValueString } })
          ++ convertPermissionsToDomain rest) := by
  refine ⟨?_, rfl, convertPermissionsToDomain_length plan.Permissions, ?_, ?_⟩
  · unfold AuthorizationResource.Create
    rcases h : c.createAuthorization (authCreateRequest plan) with e | r <;> simp [h]
  · intro p rest h
    simp [convertPermissionsToDomain, h]
  · intro p rest
    rfl

/-- Concrete plan for the C10 witness: one entry with two resources,
one entry with one resource, one entry with none. -/
def w10Plan : AuthorizationResourceModel :=
  { ID := TFString.null, OrgID := TFString.value "org-1"
    Description := TFString.value "", Status := TFString.value "active"
    Permissions :=
      [ { Action := TFString.value "read"
          Resource :=
            [ { ID := TFString.value "b1", Org := TFString.value ""
                OrgID := TFString.value "org-1", Type' := TFString.value "buckets" },
              { ID := TFString.value "b2", Org := TFString.value ""
                OrgID := TFString.value "org-1", Type' := TFString.value "buckets" } ] },
        { Action := TFString.value "write"
          Resource :=
            [ { ID := TFString.value "b1", Org := TFString.value ""
                OrgID := TFString.value "org-1", Type' := TFString.value "buckets" } ] },
        { Action := TFString.value "read", Resource := [] } ]
    UserID := TFString.null, UserOrgID := TFString.null, Token := TFString.null }

/-- Concrete client for the C10 witness. -/
def w10Client : AuthClient :=
  { findAuthorizationsByOrgID := fun _ => .error "unused"
    createAuthorization := fun _ => .error "store unavailable"
    updateAuthorizationStatus := fun _ _ => .error "unused" }

/-- An entry with an empty resource set, for the C10 witness. -/
def w10EmptyEntry : PermissionModel :=
  { Action := TFString.value "read", Resource := [] }

/-- Witness for C10 at a concrete plan: the single create call carries
the flattened permissions, whose length is 3 = 2 + 1 + 0, and the
empty-resource entry contributes nothing. -/
theorem authCreate_flattens_permissions_witness :
    (AuthorizationResource.Create w10Client w10Plan).snd =
      [.createAuthorization (authCreateRequest w10Plan)]
    ∧ (authCreateRequest w10Plan).Permissions =
        some (convertPermissionsToDomain w10Plan.Permissions)
    ∧ (convertPermissionsToDomain w10Plan.Permissions).length =
        (w10Plan.Permissions.map (fun p => p.Resource.length)).sum
    ∧ convertPermissionsToDomain [w10EmptyEntry] = convertPermissionsToDomain []
    ∧ (convertPermissionsToDomain w10Plan.Permissions).length = 3 := by
  have h := authCreate_flattens_permissions w10Client w10Plan
  exact ⟨h.1, h.2.1, h.2.2.1, h.2.2.2.1 w10EmptyEntry [] rfl, by decide⟩

/-- `readBucket` never touches the model's ID. -/
theorem readBucket_preserves_ID (c : BucketsClient) (model m : BucketResourceModel)
    (h : readBucket c model = .ok m) : m.ID = model.ID := by
  unfold readBucket at h
  rcases hf : c.findBucketByID model.ID.ValueString with e | b
  · rw [hf] at h
    cases h
  · rw [hf] at h
    rw [Except.ok.injEq] at h
    subst h
    rfl

/-- C2: when `CreateBucket` succeeds and returns id `i`, bucket Create
sets the model's id to `i` and runs the same `readBucket` routine used
by Read, so the state it writes is exactly the state Read would write
for the new id (computed fields included); when that post-create read
fails, Create reports the error diagnostic and writes no state. -/
theorem bucketCreate_hydrated_via_read (c : BucketsClient) (plan : BucketResourceModel)
    (b : DomainBucket) (i : String)
    (hcreate : c.createBucket (bucketCreateRequest plan) = .ok b)
    (hid : b.Id = some i) :
    (BucketResource.Create c plan).state =
      (BucketResource.Read c { plan with ID := TFString.value i }).state
    ∧ (∀ m, (BucketResource.Create c plan).state = some m →
        m.ID = TFString.value i
        ∧ readBucket c { plan with ID := TFString.value i } = .ok m)
    ∧ (∀ e, readBucket c { plan with ID := TFString.value i } = .error e →
        (BucketResource.Create c plan).state = none
        ∧ (BucketResource.Create c plan).diagnostics =
            [⟨"Error Reading Bucket After Creation",
              "Could not read bucket after creation: " ++ e⟩]) := by
  have hgd : b.Id.getD "" = i := by rw [hid]; rfl
  refine ⟨?_, ?_, ?_⟩
  · unfold BucketResource.Create BucketResource.Read
    rw [hcreate]
    simp only [hgd]
    rcases hb : readBucket c { plan with ID := TFString.value i } with e | m <;> simp
  · intro m hm
    unfold BucketResource.Create at hm
    rw [hcreate] at hm
    simp only [hgd] at hm
    rcases hb : readBucket c { plan with ID := TFString.value i } with e | m2 <;>
      rw [hb] at hm <;> simp at hm
    subst hm
    refine ⟨?_, rfl⟩
    rw [readBucket_preserves_ID c _ m2 hb]
  · intro e he
    unfold BucketResource.Create
    rw [hcreate]
    simp only [hgd]
    rw [he]
    exact ⟨rfl, rfl⟩

/-- Concrete plan for the C2 witness. -/
def w2Plan : BucketResourceModel :=
  { ID := TFString.null, Name := TFString.value "temp"
    Description := TFString.value "", OrgID := TFString.value "org-1"
    RetentionRules := [ { EverySeconds := TFInt64.value 2592000
                          Type' := TFString.value "expire" } ]
    RP := TFString.value "", CreatedAt := TFString.null
    UpdatedAt := TFString.null, Type' := TFString.null }

/-- Concrete remote bucket for the C2 witness, as returned by both
CreateBucket and FindBucketByID. -/
def w2Bucket : DomainBucket :=
  { Id := some "b-1", Name := "temp", Description := none
    OrgID := some "org-1", Rp := none
    CreatedAt := some "2024-01-01 00:00:00 +0000 UTC"
    UpdatedAt := some "2024-01-01 00:00:00 +0000 UTC"
    Type' := some "user"
    RetentionRules := [ { EverySeconds := 2592000, Type' := none } ] }

/-- Concrete client for the C2 witness. -/
def w2Client : BucketsClient :=
  { createBucket := fun _ => .ok w2Bucket
    findBucketByID := fun _ => .ok w2Bucket }

/-- The fully hydrated model the post-create read yields at the C2
witness input. -/
def w2After : BucketResourceModel :=
  { ID := TFString.value "b-1", Name := TFString.value "temp"
    Description := TFString.value "", OrgID := TFString.value "org-1"
    RetentionRules := [ { EverySeconds := TFInt64.value 2592000
                          Type' := TFString.value "expire" } ]
    RP := TFString.value ""
    CreatedAt := TFString.value "2024-01-01 00:00:00 +0000 UTC"
    UpdatedAt := TFString.value "2024-01-01 00:00:00 +0000 UTC"
    Type' := TFString.value "user" }

/-- Witness for C2 at a concrete client and plan. -/
theorem bucketCreate_hydrated_via_read_witness :
    (BucketResource.Create w2Client w2Plan).state =
      (BucketResource.Read w2Client { w2Plan with ID := TFString.value "b-1" }).state
    ∧ w2After.ID = TFString.value "b-1"
    ∧ readBucket w2Client { w2Plan with ID := TFString.value "b-1" } = .ok w2After := by
  have h := bucketCreate_hydrated_via_read w2Client w2Plan w2Bucket "b-1" rfl rfl
  have h2 := h.2.1 w2After (by decide)
  exact ⟨h.1, h2.1, h2.2⟩

/-- `convertRetentionRulesToTerraform` maps the domain rules pointwise,
defaulting a nil rule type to "expire". -/
theorem convertRetentionRulesToTerraform_eq_map (rules : List DomainRetentionRule) :
    convertRetentionRulesToTerraform rules =
      rules.map (fun r =>
        { EverySeconds := TFInt64.value r.EverySeconds
          Type' := TFString.value (match r.Type' with
            | some t => t
            | none => "expire") }) := by
  induction rules with
  | nil => rfl
  | cons r rest ih => simp [convertRetentionRulesToTerraform, ih]

/-- C3: when `FindBucketByID` succeeds, `readBucket` materializes a nil
Description as "" and a nil Rp as "", and the retention-rule conversion
turns every rule whose type pointer is nil into a terraform rule with
type "expire". -/
theorem readBucket_materializes_defaults (c : BucketsClient)
    (model : BucketResourceModel) (b : DomainBucket) (m : BucketResourceModel)
    (hfind : c.findBucketByID model.ID.ValueString = .ok b)
    (hread : readBucket c model = .ok m) :
    (b.Description = none → m.Description = TFString.value "")
    ∧ (b.Rp = none → m.RP = TFString.value "")
    ∧ (∀ r ∈ b.RetentionRules, r.Type' = none →
        ({ EverySeconds := TFInt64.value r.EverySeconds
           Type' := TFString.value "expire" } : RetentionRuleModel)
          ∈ m.RetentionRules) := by
  unfold readBucket at hread
  rw [hfind, Except.ok.injEq] at hread
  subst hread
  refine ⟨?_, ?_, ?_⟩
  · intro h; simp [h]
  · intro h; simp [h]
  · intro r hr hty
    simp only [convertRetentionRulesToTerraform_eq_map]
    refine List.mem_map.mpr ⟨r, hr, ?_⟩
    simp [hty]

/-- Concrete prior model for the C3 witness. -/
def w3Model : BucketResourceModel :=
  { ID := TFString.value "b-2", Name := TFString.value "temp"
    Description := TFString.value "old", OrgID := TFString.value "org-1"
    RetentionRules := [], RP := TFString.value "old-rp"
    CreatedAt := TFString.null, UpdatedAt := TFString.null, Type' := TFString.null }

/-- Concrete remote bucket for the C3 witness: nil description, nil rp,
one retention rule with a nil type. -/
def w3Bucket : DomainBucket :=
  { Id := some "b-2", Name := "temp", Description := none
    OrgID := some "org-1", Rp := none, CreatedAt := none, UpdatedAt := none
    Type' := none
    RetentionRules := [ { EverySeconds := 3600, Type' := none } ] }

/-- Concrete client for the C3 witness. -/
def w3Client : BucketsClient :=
  { createBucket := fun _ => .error "unused"
    findBucketByID := fun _ => .ok w3Bucket }

/-- The model `readBucket` yields at the C3 witness input. -/
def w3After : BucketResourceModel :=
  { ID := TFString.value "b-2", Name := TFString.value "temp"
    Description := TFString.value "", OrgID := TFString.value "org-1"
    RetentionRules := [ { EverySeconds := TFInt64.value 3600
                          Type' := TFString.value "expire" } ]
    RP := TFString.value ""
    CreatedAt := TFString.null, UpdatedAt := TFString.null, Type' := TFString.null }

/-- Witness for C3 at a concrete client and model. -/
theorem readBucket_materializes_defaults_witness :
    w3After.Description = TFString.value ""
    ∧ w3After.RP = TFString.value ""
    ∧ ({ EverySeconds := TFInt64.value 3600
         Type' := TFString.value "expire" } : RetentionRuleModel)
        ∈ w3After.RetentionRules := by
  have h := readBucket_materializes_defaults w3Client w3Model w3Bucket w3After
    rfl rfl
  exact ⟨h.1 rfl, h.2.1 rfl,
    h.2.2 { EverySeconds := 3600, Type' := none } (by decide) rfl⟩

/-- The resolved url is never empty: the built-in default is applied
before the emptiness check. -/
theorem resolveURL_ne_empty (env : Env) (config : influxdbProviderModel) :
    resolveURL env config ≠ "" := by
  simp only [resolveURL]
  by_cases h :
      ((if !config.URL.IsNull then config.URL.ValueString else env.influxdbV2Url) == "")
        = true
  · rw [if_pos h]
    decide
  · rw [if_neg h]
    simpa [beq_iff_eq] using h

/-- Both branches of `Configure` record the resolved url and token. -/
theorem configure_resolved_fields (env : Env) (config : influxdbProviderModel)
    (ready : String → String → Except String (Option ReadyInfo)) :
    (influxdbProvider.Configure env config ready).resolvedURL = resolveURL env config
    ∧ (influxdbProvider.Configure env config ready).resolvedToken =
        resolveToken env config := by
  refine ⟨?_, ?_⟩ <;> simp only [influxdbProvider.Configure] <;>
    (repeat' split) <;> rfl

/-- C7: `Configure` resolves the token as the configuration value when
the token attribute is non-null and the INFLUXDB_V2_TOKEN environment
variable otherwise; when the resolved token is empty it adds exactly
the missing-token diagnostic (which names the token attribute and both
resolution sources) and neither constructs a client nor probes the
server. -/
theorem configure_missing_token (env : Env) (config : influxdbProviderModel)
    (ready : String → String → Except String (Option ReadyInfo)) :
    (influxdbProvider.Configure env config ready).resolvedToken =
      (if config.Token.IsNull then env.influxdbV2Token else config.Token.ValueString)
    ∧ (resolveToken env config = "" →
        (influxdbProvider.Configure env config ready).diagnostics = [tokenMissingDiag]
        ∧ (influxdbProvider.Configure env config ready).clientCreated = false
        ∧ (influxdbProvider.Configure env config ready).readyProbed = false) := by
  have hurl : (resolveURL env config == "") = false := by
    simp [resolveURL_ne_empty env config]
  constructor
  · rw [(configure_resolved_fields env config ready).2]
    unfold resolveToken
    cases h : config.Token.IsNull <;> simp [h]
  · intro htok
    refine ⟨?_, ?_, ?_⟩ <;>
      simp [influxdbProvider.Configure, htok, hurl]

/-- Concrete environment for the C7 witness: no token anywhere. -/
def w7Env : Env := { influxdbV2Url := "", influxdbV2Token := "" }

/-- Concrete configuration for the C7 witness. -/
def w7Config : influxdbProviderModel := { URL := TFString.null, Token := TFString.null }

/-- Concrete probe for the C7 witness (never reached). -/
def w7Ready : String → String → Except String (Option ReadyInfo) :=
  fun _ _ => .error "unused"

/-- Witness for C7 at a concrete environment and configuration. -/
theorem configure_missing_token_witness :
    (influxdbProvider.Configure w7Env w7Config w7Ready).resolvedToken =
      (if w7Config.Token.IsNull then w7Env.influxdbV2Token
       else w7Config.Token.ValueString)
    ∧ (influxdbProvider.Configure w7Env w7Config w7Ready).diagnostics =
        [tokenMissingDiag]
    ∧ (influxdbProvider.Configure w7Env w7Config w7Ready).clientCreated = false
    ∧ (influxdbProvider.Configure w7Env w7Config w7Ready).readyProbed = false := by
  have h := configure_missing_token w7Env w7Config w7Ready
  have h2 := h.2 rfl
  exact ⟨h.1, h2.1, h2.2.1, h2.2.2⟩

/-- The probe phase never emits the missing-url diagnostic. -/
theorem configureProbe_no_urlMissing (o : Except String (Option ReadyInfo)) :
    urlMissingDiag ∉ (configureProbe o).fst := by
  rcases o with e | op
  · simp [configureProbe, urlMissingDiag, connectErrorDiag]
  · rcases op with _ | r
    · simp [configureProbe, urlMissingDiag, serverNotReadyDiag]
    · rcases h : r.Status with _ | s <;>
        simp [configureProbe, h, urlMissingDiag, serverNotReadyDiag]

/-- C9: the url tested by `Configure` is the resolved url, which is
never empty (the built-in default is applied before the emptiness
check), so the "Missing InfluxDB URL Configuration" diagnostic is never
emitted on any input; and a url explicitly configured as the empty
string resolves to the built-in default whatever the environment
variable holds. -/
theorem configure_url_branch_unreachable (env : Env) (config : influxdbProviderModel)
    (ready : String → String → Except String (Option ReadyInfo)) :
    (influxdbProvider.Configure env config ready).resolvedURL = resolveURL env config
    ∧ resolveURL env config ≠ ""
    ∧ urlMissingDiag ∉ (influxdbProvider.Configure env config ready).diagnostics
    ∧ (config.URL = TFString.value "" →
        resolveURL env config = "http://localhost:8086") := by
  have hurl : (resolveURL env config == "") = false := by
    simp [resolveURL_ne_empty env config]
  refine ⟨(configure_resolved_fields env config ready).1,
    resolveURL_ne_empty env config, ?_, ?_⟩
  · unfold influxdbProvider.Configure
    cases htok : (resolveToken env config == "")
    · simpa [htok, hurl] using
        configureProbe_no_urlMissing
          (ready (resolveURL env config) (resolveToken env config))
    · simp [htok, hurl, urlMissingDiag, tokenMissingDiag]
  · intro h
    simp [resolveURL, h, TFString.IsNull, TFString.ValueString]

/-- Concrete environment for the C9 witness: the environment variable
holds a different url. -/
def w9Env : Env := { influxdbV2Url := "http://envhost:9999", influxdbV2Token := "tok" }

/-- Concrete configuration for the C9 witness: url explicitly "". -/
def w9Config : influxdbProviderModel :=
  { URL := TFString.value "", Token := TFString.value "tok" }

/-- Concrete probe for the C9 witness. -/
def w9Ready : String → String → Except String (Option ReadyInfo) :=
  fun _ _ => .ok (some { Status := some "ready", Started := none })

/-- Witness for C9 at a concrete environment and configuration. -/
theorem configure_url_branch_unreachable_witness :
    (influxdbProvider.Configure w9Env w9Config w9Ready).resolvedURL =
      resolveURL w9Env w9Config
    ∧ resolveURL w9Env w9Config ≠ ""
    ∧ urlMissingDiag ∉ (influxdbProvider.Configure w9Env w9Config w9Ready).diagnostics
    ∧ resolveURL w9Env w9Config = "http://localhost:8086" := by
  have h := configure_url_branch_unreachable w9Env w9Config w9Ready
  exact ⟨h.1, h.2.1, h.2.2.1, h.2.2.2 rfl⟩

/-- C8: the readiness data source writes `ready = true` to every state
it saves, and when the probe call fails it reports exactly the error
diagnostic embedding the underlying error text and writes no state. -/
theorem readyRead_true_or_error (c : ReadyClient) :
    (∀ m, (ReadyDataSource.Read c).state = some m → m.Ready = TFBool.value true)
    ∧ (∀ e, c.Ready = .error e →
        (ReadyDataSource.Read c).diagnostics =
          [⟨"Error Checking Server Status",
            "Could not check if server is ready: " ++ e⟩]
        ∧ (ReadyDataSource.Read c).state = none) := by
  rcases h : c.Ready with e | r
  · refine ⟨?_, ?_⟩
    · intro m hm
      simp [ReadyDataSource.Read, h] at hm
    · intro e' he'
      obtain rfl : e = e' := by injection he'
      constructor <;> simp [ReadyDataSource.Read, h]
  · refine ⟨?_, ?_⟩
    · intro m hm
      simp only [ReadyDataSource.Read, h, Option.some.injEq] at hm
      rw [← hm]
    · intro e' he'
      exact absurd he' (by simp)

/-- Concrete succeeding client for the C8 witness. -/
def w8OkClient : ReadyClient :=
  { Ready := .ok { Status := some "ready", Started := some "2024-01-01" }
    ServerURL := "http://localhost:8086" }

/-- The state the data source saves at the C8 witness input. -/
def w8OkModel : ReadyDataSourceModel :=
  { ID := TFString.value "http://localhost:8086"
    URL := TFString.value "http://localhost:8086"
    Ready := TFBool.value true
    Status := TFString.value "ready"
    Started := TFString.value "2024-01-01" }

/-- Concrete failing client for the C8 witness. -/
def w8ErrClient : ReadyClient :=
  { Ready := .error "connection refused", ServerURL := "http://localhost:8086" }

/-- Witness for C8: the theorem applied at a succeeding client (state
carries ready = true) and at a failing client (diagnostic, no state). -/
theorem readyRead_true_or_error_witness :
    w8OkModel.Ready = TFBool.value true
    ∧ (ReadyDataSource.Read w8ErrClient).diagnostics =
        [⟨"Error Checking Server Status",
          "Could not check if server is ready: " ++ "connection refused"⟩]
    ∧ (ReadyDataSource.Read w8ErrClient).state = none := by
  have h1 := (readyRead_true_or_error w8OkClient).1 w8OkModel (by decide)
  have h2 := (readyRead_true_or_error w8ErrClient).2 "connection refused" rfl
  exact ⟨h1, h2.1, h2.2⟩
